import Mathlib

/-!
Verification of the B-Max chatbot backend (src/main.py) against its
natural-language specification.

The development shallowly embeds the parts of the program the claims are
about:

* `dd_to_py` — the DynamoDB record normalizer (src/main.py lines 168–187),
  including Python's dynamic-typing behaviour on the containment checks
  (`'S' in v` is a substring test on strings, a key test on dicts, a
  membership test on lists) and on indexing.
* the tender context formatter `format_tenders_for_ai` (lines 272–313),
* the tender database helpers and `enhance_prompt_with_context`
  (lines 241–415 and 654–710),
* the session machinery `UserSession`, `get_user_session`,
  `cleanup_old_sessions`, and the `/chat`, `/health`,
  `/session/.../clear-context` endpoints (lines 417–852).

External collaborators (DynamoDB scans, Cognito, the Ollama completion
call) are passed in as parameters: the database scan result is a list of
wire items, profile resolution is a `String → Option Profile` function,
and the completion call is a `List Message → Except String String`
function whose `error` case models a raised exception.  Wall-clock time
is a `Nat` of seconds plus, where the code embeds a formatted timestamp
into a prompt string, an opaque formatted-time string.
-/

namespace BMax

/-! ## Small string utilities (Python semantics) -/

/-- Contiguous-sublist test on lists, used to model Python's
`needle in haystack` on strings.  The empty pattern is contained in
everything, as in Python. -/
def isSublist (pat : List Char) : List Char → Bool
  | [] => pat.isEmpty
  | c :: rest => pat.isPrefixOf (c :: rest) || isSublist pat rest

/-- Python `pat in s` on strings: substring containment. -/
def strContains (s pat : String) : Bool :=
  isSublist pat.toList s.toList

/-- ASCII lowercase of one character. -/
def asciiLower (c : Char) : Char :=
  if 65 ≤ c.toNat ∧ c.toNat ≤ 90 then Char.ofNat (c.toNat + 32) else c

/-- Python `str.lower()`.  The program's keyword tables and the inputs in
the claims are ASCII, where per-character ASCII lowercasing agrees with
Python. -/
def pyLower (s : String) : String :=
  String.mk (s.toList.map asciiLower)

/-- Python `str.isdigit()` on the ASCII alphabet used by this program:
true iff the string is nonempty and every character is a decimal digit.
(Python additionally accepts non-ASCII digit characters, which do not
occur here.) -/
def strIsDigit (s : String) : Bool :=
  !s.isEmpty && s.toList.all Char.isDigit

/-- Decimal value of an all-digits string, the value `int(n)` produces on
a string for which `n.isdigit()` holds. -/
def strToNatDigits (s : String) : Nat :=
  s.toList.foldl (fun a c => a * 10 + (c.toNat - 48)) 0

/-- A conservative grammar for the numeral strings on which Python's
`float(n)` succeeds: optional sign, then digits with at most one decimal
point and at least one digit.  The claims about the numeric branch of
the normalizer are stated over this grammar. -/
def isPyNumeral (s : String) : Bool :=
  let cs := match s.toList with
    | '-' :: r => r
    | '+' :: r => r
    | r => r
  cs.any Char.isDigit && cs.all (fun c => c.isDigit || c = '.') &&
    (cs.filter (fun c => c = '.')).length ≤ 1

/-! ## The record normalizer `dd_to_py` (src/main.py 168–187)

The Python universe of values flowing through `dd_to_py`: tagged wire
items are dicts whose leaf values are strings, booleans, or lists, and
the result values are strings, ints, floats, booleans, lists and
dicts.  A single untyped universe models Python faithfully.

The `float` constructor records the numeral string handed to Python's
`float(...)`: IEEE floating point is outside the embedding and no claim
inspects the float's numeric value, only which constructor was chosen.
(`float(n)` raises `ValueError` on non-numeral strings; the claims are
stated over `isPyNumeral` strings, where it succeeds.) -/

inductive PyVal where
  | str : String → PyVal
  | int : Int → PyVal
  | float : String → PyVal
  | bool : Bool → PyVal
  | list : List PyVal → PyVal
  | dict : List (String × PyVal) → PyVal
deriving Repr

/-- Python truthiness (`if not item:`).  For `float` the carried numeral
string is tested against the zero literals; floats never reach a
truthiness test in this development. -/
def pyTruthy : PyVal → Bool
  | .str s => !s.isEmpty
  | .int n => n != 0
  | .float s => !(s == "0" || s == "0.0" || s == "-0" || s == "-0.0")
  | .bool b => b
  | .list l => !l.isEmpty
  | .dict m => !m.isEmpty

/-- The six type tags `dd_to_py` tests for, in source order. -/
def ddTags : List String := ["S", "N", "BOOL", "SS", "M", "L"]

/-- First-match association lookup, modelling Python dict key access
(the dicts produced by DynamoDB and by the program have unique keys). -/
def alook (k : String) : List (String × PyVal) → Option PyVal
  | [] => none
  | (a, v) :: rest => if a = k then some v else alook k rest

mutual

/-- `dd_to_py` (src/main.py 168–187).  `if not item: return {}`; then
`item.items()` (an `AttributeError` on a truthy non-dict); then the
`if 'S' in v / elif 'N' in v / ...` chain per entry. -/
def dd_to_py (item : PyVal) : Except String PyVal :=
  if pyTruthy item = false then Except.ok (PyVal.dict [])
  else
    match item with
    | PyVal.dict entries => Except.map PyVal.dict (ddEntries entries)
    | _ => Except.error "AttributeError"
termination_by structural item

/-- The `for k, v in item.items()` loop body: convert each entry,
dropping entries whose value hits none of the six tag branches. -/
def ddEntries : List (String × PyVal) → Except String (List (String × PyVal))
  | [] => Except.ok []
  | (k, v) :: rest =>
    match ddField v with
    | Except.error e => Except.error e
    | Except.ok none =>
      ddEntries rest
    | Except.ok (some w) =>
      match ddEntries rest with
      | Except.error e => Except.error e
      | Except.ok ws => Except.ok ((k, w) :: ws)
termination_by structural l => l

/-- One `if 'S' in v: ... elif 'N' in v: ... elif 'L' in v: ...` chain
(src/main.py 174–186).  When `v` is a string, `'S' in v` is a substring
test and a hit leads to `v['S']`, a `TypeError` (string indices must be
integers); similarly for lists; `in` on numbers and booleans is itself
a `TypeError`.  When `v` is a dict, `'S' in v` is a key test and
`v['S']` is a lookup; for the recursive `'M'` and `'L'` branches the
first matching entry is converted in place by `ddConvM`/`ddConvL`,
which walk to the same entry `v['M']`/`v['L']` denotes (keys are
unique in the wire format). -/
def ddField : PyVal → Except String (Option PyVal)
  | PyVal.str s =>
    if ddTags.any (fun t => strContains s t) then Except.error "TypeError"
    else Except.ok none
  | PyVal.list l =>
    -- Python `'S' in l` compares the tag against each element with `==`;
    -- only string elements can compare equal to a tag string.
    if ddTags.any (fun t => l.any (fun e => match e with
        | PyVal.str s => s == t
        | _ => false)) then Except.error "TypeError"
    else Except.ok none
  | PyVal.int _ => Except.error "TypeError"
  | PyVal.float _ => Except.error "TypeError"
  | PyVal.bool _ => Except.error "TypeError"
  | PyVal.dict m =>
    match alook "S" m with
    | some sval => Except.ok (some sval)
    | none =>
    match alook "N" m with
    | some nval =>
      match nval with
      | PyVal.str n =>
        Except.ok (some (if strIsDigit n then PyVal.int (Int.ofNat (strToNatDigits n))
          else PyVal.float n))
      | _ => Except.error "AttributeError"
    | none =>
    match alook "BOOL" m with
    | some bval => Except.ok (some bval)
    | none =>
    match alook "SS" m with
    | some ssval => Except.ok (some ssval)
    | none =>
    if (alook "M" m).isSome then ddConvM m
    else if (alook "L" m).isSome then ddConvL m
    else Except.ok none
termination_by structural v => v

/-- `result[k] = dd_to_py(v['M'])` (src/main.py 184): convert the value
of the first `"M"` entry. -/
def ddConvM : List (String × PyVal) → Except String (Option PyVal)
  | [] => Except.ok none
  | (a, v) :: rest =>
    if a = "M" then Except.map some (dd_to_py v)
    else ddConvM rest
termination_by structural l => l

/-- `result[k] = [dd_to_py(el) for el in v['L']]` (src/main.py 186):
convert the value of the first `"L"` entry.  When that value is a
string Python iterates its characters and when it is a dict Python
iterates its keys; every such element is a truthy one-character or key
string, so the first recursive call raises `AttributeError`, and the
empty string/dict gives the empty list; iterating a number or boolean
is itself a `TypeError`. -/
def ddConvL : List (String × PyVal) → Except String (Option PyVal)
  | [] => Except.ok none
  | (a, v) :: rest =>
    if a = "L" then
      match v with
      | PyVal.list els => Except.map (fun ws => some (PyVal.list ws)) (ddElems els)
      | PyVal.str s =>
        if s.isEmpty then Except.ok (some (PyVal.list [])) else Except.error "AttributeError"
      | PyVal.dict dm =>
        if dm.isEmpty then Except.ok (some (PyVal.list [])) else Except.error "AttributeError"
      | _ => Except.error "TypeError"
    else ddConvL rest
termination_by structural l => l

/-- `[dd_to_py(el) for el in v['L']]` (src/main.py 186). -/
def ddElems : List PyVal → Except String (List PyVal)
  | [] => Except.ok []
  | e :: rest =>
    match dd_to_py e with
    | Except.error err => Except.error err
    | Except.ok w =>
      match ddElems rest with
      | Except.error err => Except.error err
      | Except.ok ws => Except.ok (w :: ws)
termination_by structural l => l

end

/-! ## Tender records and the context formatter (src/main.py 241–313)

The tender pipeline never goes through `dd_to_py`: the scan handlers
extract only the `'S'`-tagged attributes of each wire item into a plain
string-to-string dict (src/main.py 260–265, 350–356, 377–384).  A wire
item is modelled by a dedicated tagged-value type, and an extracted
tender by an association list of string fields with Python `dict.get`
semantics. -/

/-- A DynamoDB attribute value as returned by a scan. -/
inductive AttrVal where
  | S : String → AttrVal
  | N : String → AttrVal
  | BOOL : Bool → AttrVal
  | SS : List String → AttrVal
  | M : List (String × AttrVal) → AttrVal
  | L : List AttrVal → AttrVal
deriving Repr

/-- A wire item: attribute name to tagged value. -/
abbrev Item := List (String × AttrVal)

/-- An extracted tender: the `'S'`-valued attributes of an item. -/
abbrev Tender := List (String × String)

/-- `for key, value in item.items(): if 'S' in value: tender[key] = value['S']`. -/
def extractS (item : Item) : Tender :=
  item.filterMap fun kv =>
    match kv.2 with
    | AttrVal.S s => some (kv.1, s)
    | _ => none

/-- Python `tender.get(k, d)`. -/
def dget (t : Tender) (k d : String) : String :=
  match List.lookup k t with
  | some v => v
  | none => d

/-- The predefined categories (src/main.py 15–18). -/
def CATEGORIES : List String :=
  ["Engineering Services", "IT Services", "Construction", "Consulting",
   "Supplies", "Maintenance", "Logistics", "Healthcare"]

/-- `", ".join(...)`. -/
def joinComma (l : List String) : String :=
  String.intercalate ", " l

/-- The separator `"─" * 50 + "\n\n"` ending each tender block. -/
def hrLine : String :=
  String.mk (List.replicate 50 '─') ++ "\n\n"

/-- The lines a tender block appends before the document/source lines
(src/main.py 291–306): the seven field lines and the optional contact
block.  `i` is the 1-based `enumerate` index. -/
def tenderInfoLines (i : Nat) (tender : Tender) : List String :=
  let title := dget tender "title" "Unknown Title"
  let category := dget tender "Category" "Uncategorized"
  let closing_date := dget tender "closingDate" "Unknown"
  let agency := dget tender "sourceAgency" "Unknown Agency"
  let status := dget tender "status" "Unknown"
  let reference_number := dget tender "referenceNumber" "N/A"
  let contact_name := dget tender "contactName" "N/A"
  let contact_email := dget tender "contactEmail" "N/A"
  let contact_number := dget tender "contactNumber" "N/A"
  let contactBlock :=
    if contact_name ≠ "N/A" ∨ contact_email ≠ "N/A" ∨ contact_number ≠ "N/A" then
      ["👤 Contact Info:\n"]
      ++ (if contact_name ≠ "N/A" then ["   - Name: " ++ contact_name ++ "\n"] else [])
      ++ (if contact_email ≠ "N/A" then ["   - Email: " ++ contact_email ++ "\n"] else [])
      ++ (if contact_number ≠ "N/A" then ["   - Phone: " ++ contact_number ++ "\n"] else [])
    else []
  ["🚀 TENDER #" ++ toString i ++ "\n",
   "📋 Title: " ++ title ++ "\n",
   "🏷️ Reference: " ++ reference_number ++ "\n",
   "📊 Category: " ++ category ++ "\n",
   "🏢 Agency: " ++ agency ++ "\n",
   "📅 Closing Date: " ++ closing_date ++ "\n",
   "📈 Status: " ++ status ++ "\n"]
  ++ contactBlock

/-- One tender block of `format_tenders_for_ai` (src/main.py 278–310),
as the list of strings the code appends to `formatted`, in order: the
info lines, then the document line (`link`, src/main.py 285 and 308),
the source line (`sourceUrl`, src/main.py 289 and 309), and the
separator. -/
def tenderBlockLines (i : Nat) (tender : Tender) : List String :=
  tenderInfoLines i tender
  ++ ["🔗 Documents: " ++ dget tender "link" "No link available" ++ "\n",
      "🌐 Source: " ++ dget tender "sourceUrl" "N/A" ++ "\n",
      hrLine]

/-- `format_tenders_for_ai` (src/main.py 272–313). -/
def format_tenders_for_ai (tenders : List Tender) : String :=
  if tenders.isEmpty then "No tender data available."
  else
    "RECENT TENDERS AVAILABLE:\n\n"
    ++ String.join ((tenders.mapIdx fun idx t => String.join (tenderBlockLines (idx + 1) t)))
    ++ "💡 I can help you analyze these tenders, find specific opportunities, or provide recommendations based on your preferences!"

/-- The `ProjectionExpression` of the scan in `get_tender_information`
(src/main.py 252). -/
def tenderProjection : List String :=
  ["title", "Category", "closingDate", "sourceAgency", "status", "link",
   "referenceNumber", "contactEmail", "contactName", "contactNumber", "sourceUrl"]

/-- `get_tender_information` (src/main.py 241–270), with the database
scan result passed in.  The scan's `Limit=10` caps the items evaluated;
`query` and `user_id` are accepted by the Python function but unused.
The `dynamodb is None` and exception paths concern an uninitialized
client and are outside this model. -/
def get_tender_information (db : List Item) : String :=
  let items := db.take 10
  if items.isEmpty then "No tenders found in the database."
  else
    format_tenders_for_ai
      (items.map fun it => extractS (it.filter fun kv => tenderProjection.contains kv.1))

/-- `category_mapping` (src/main.py 322–334). -/
def category_mapping : List (String × String) :=
  [("engineering", "Engineering Services"), ("it", "IT Services"),
   ("technology", "IT Services"), ("construction", "Construction"),
   ("consulting", "Consulting"), ("supplies", "Supplies"),
   ("goods", "Supplies"), ("maintenance", "Maintenance"),
   ("logistics", "Logistics"), ("healthcare", "Healthcare"),
   ("medical", "Healthcare")]

/-- DynamoDB `contains(Category, :cat)` on one wire item: true iff the
`Category` attribute is a string containing the operand as substring. -/
def itemCategoryContains (it : Item) (cat : String) : Bool :=
  match List.lookup "Category" it with
  | some (AttrVal.S s) => strContains s cat
  | _ => false

/-- `search_tenders_by_category` (src/main.py 315–362).  A DynamoDB
scan applies `Limit` before the filter expression, so at most the first
8 table items are evaluated. -/
def search_tenders_by_category (db : List Item) (category : String) : List Tender :=
  let mapped := (List.lookup (pyLower category) category_mapping).getD category
  ((db.take 8).filter fun it => itemCategoryContains it mapped).map extractS

/-- Python `tender.get('tenderId') or tender.get('tender_id')`:
the second operand when the first is missing or falsy (empty). -/
def pyOrStr : Option String → Option String → Option String
  | some s, b => if s.isEmpty then b else some s
  | none, b => b

/-- The dedupe loop of `get_tenders_by_multiple_categories`
(src/main.py 403–410): keep the first tender per id, dropping tenders
with a missing or falsy id. -/
def dedupeByTenderId (ts : List Tender) : List Tender :=
  (ts.foldl
    (fun (acc : List String × List Tender) t =>
      match pyOrStr (List.lookup "tenderId" t) (List.lookup "tender_id" t) with
      | some tid =>
        if tid.isEmpty then acc
        else if acc.1.contains tid then acc
        else (acc.1 ++ [tid], acc.2 ++ [t])
      | none => acc)
    ([], [])).2

/-- `get_tenders_by_multiple_categories` (src/main.py 391–415). -/
def get_tenders_by_multiple_categories (db : List Item) (categories : List String) :
    List Tender :=
  (dedupeByTenderId (categories.flatMap fun c => search_tenders_by_category db c)).take 10

/-! ## `enhance_prompt_with_context` (src/main.py 654–710) -/

/-- `category_keywords` (src/main.py 659–668). -/
def category_keywords : List (String × List String) :=
  [("Engineering Services", ["engineering", "engineer", "technical", "design", "infrastructure"]),
   ("IT Services", ["IT", "technology", "software", "hardware", "computer", "digital", "tech", "programming"]),
   ("Construction", ["construction", "building", "civil", "contractor", "build", "renovation"]),
   ("Consulting", ["consulting", "consultant", "advisory", "strategy", "management"]),
   ("Supplies", ["supplies", "supply", "goods", "materials", "equipment", "products"]),
   ("Maintenance", ["maintenance", "repair", "service", "upkeep", "support"]),
   ("Logistics", ["logistics", "transport", "shipping", "delivery", "supply chain"]),
   ("Healthcare", ["healthcare", "medical", "health", "hospital", "clinic", "pharmaceutical"])]

/-- `tender_keywords` (src/main.py 679). -/
def tender_keywords : List String :=
  ["tender", "tenders", "procurement", "bid", "category", "recommend",
   "suggest", "opportunity", "RFP", "RFQ"]

/-- The categories whose keyword list hits the lowercased prompt
(src/main.py 673–676). -/
def matched_categories (promptLower : String) : List String :=
  (category_keywords.filter fun ck => ck.2.any fun kw => strContains promptLower kw).map
    Prod.fst

/-- The `database_context` local of `enhance_prompt_with_context`
(src/main.py 656–692), with the table snapshot passed in. -/
def database_context (user_prompt : String) (db : List Item) : String :=
  let lower := pyLower user_prompt
  let matched := matched_categories lower
  if (tender_keywords.any fun kw => strContains lower kw) || !matched.isEmpty then
    if !matched.isEmpty then
      let specific := get_tenders_by_multiple_categories db matched
      if !specific.isEmpty then
        "🔍 Tenders in categories: " ++ joinComma matched ++ "\n\n"
          ++ format_tenders_for_ai specific
      else
        "📊 No specific tenders found for categories: " ++ joinComma matched
          ++ ". Here are recent tenders instead:\n\n" ++ get_tender_information db
    else get_tender_information db
  else ""

/-- `enhance_prompt_with_context` (src/main.py 654–710).  The session
argument is used only for `get_first_name()` (its `user_id` is passed to
`get_tender_information`, which ignores it), so the first name is taken
directly. -/
def enhance_prompt_with_context (user_prompt first_name : String) (db : List Item) : String :=
  let dbc := database_context user_prompt db
  "\nUser: " ++ first_name
  ++ "\nMessage: " ++ user_prompt
  ++ "\n\n" ++ (if dbc = "" then "" else dbc)
  ++ "\n\nAvailable Categories: " ++ joinComma CATEGORIES
  ++ "\n\nRemember to address the user by their first name \"" ++ first_name
  ++ "\" naturally in your response.\nFocus on providing helpful tender information and recommendations.\nWhen discussing tenders, include specific details like title, reference number, closing date, and links.\nMaintain conversation context and refer back to previous discussions when relevant.\nUse the predefined categories when discussing tender types.\n"

/-! ## Profiles, sessions and the session manager (src/main.py 417–652)

Profile resolution (`load_user_profile`, Cognito + DynamoDB strategies)
is an external lookup; it is passed in as a `String → Option Profile`
function (`none` covers every miss path, after which the code installs
`create_default_profile()`).  Wall-clock time is a `Nat` of seconds plus
an opaque formatted-time string `nowStr` for the prompt's
`Current time:` line. -/

/-- The profile fields the session code reads (a field is `none` when
the key is absent from the profile dict). -/
structure Profile where
  firstName : Option String
  lastName : Option String
  companyName : Option String
  position : Option String
  location : Option String
  preferredCategories : Option (List String)
deriving Repr, DecidableEq

/-- `create_default_profile` (src/main.py 577–588). -/
def default_profile : Profile :=
  { firstName := some "User", lastName := some "", companyName := some "Unknown",
    position := some "User", location := some "Unknown",
    preferredCategories := some [] }

/-- One chat message. -/
structure Message where
  role : String
  content : String
deriving Repr, DecidableEq

/-- `get_first_name` (src/main.py 597–601), as a function of the
profile. -/
def firstNameOf : Option Profile → String
  | some p => p.firstName.getD "User"
  | none => "User"

/-- `get_display_name` (src/main.py 590–595): first and last name
joined and stripped. -/
def displayNameOf : Option Profile → String
  | some p => ((p.firstName.getD "User") ++ " " ++ (p.lastName.getD "")).trim
  | none => "User"

/-- `create_system_prompt` (src/main.py 441–510).  The `username`
parameter is accepted but unused, exactly as in the source; apostrophes
in the text are written `\x27`. -/
def create_system_prompt (user_profile : Option Profile)
    (_username first_name : String) (nowStr : String) : String :=
  let company := match user_profile with
    | some p => p.companyName.getD "Unknown"
    | none => "Unknown"
  let position := match user_profile with
    | some p => p.position.getD "Unknown"
    | none => "Unknown"
  let location := match user_profile with
    | some p => p.location.getD "Unknown"
    | none => "Unknown"
  let preferred_categories := match user_profile with
    | some p => (p.preferredCategories.getD [])
    | none => []
  let valid_preferred_categories := preferred_categories.filter fun cat => CATEGORIES.contains cat
  let categories_str :=
    if !valid_preferred_categories.isEmpty then joinComma valid_preferred_categories
    else "Not specified"
  let available_categories_str := joinComma CATEGORIES
  "You are B-Max, an AI assistant for TenderConnect. \n\nCRITICAL RULES - FOLLOW THESE EXACTLY:\n1. ALWAYS address the user by their first name \"" ++ first_name
  ++ "\" in EVERY response\n2. Never use \"User\" or the username - always use \"" ++ first_name
  ++ "\"\n3. Be warm, friendly, and professional\n4. Remember context from previous messages in this conversation\n5. If you don\x27t know something, be honest and say so\n6. Use emojis occasionally to make conversations friendly\n7. Keep responses concise but informative\n8. Focus on tender-related topics and procurement\n9. NEVER mention or reference other users or their information\n10. NEVER share any user profile details beyond what\x27s necessary for the conversation\n11. When users ask about tenders, provide relevant tender information and recommendations from the database\n12. Use the user\x27s preferences to personalize tender recommendations when appropriate\n13. ALWAYS include specific tender details like title, reference number, closing date, agency, and links when discussing tenders\n14. Make tender information easy to read with clear formatting\n15. Maintain conversation context and refer back to previous discussions when relevant\n16. Use the predefined categories when discussing tender types: " ++ available_categories_str
  ++ "\n\nAVAILABLE TENDER CATEGORIES:\n" ++ available_categories_str
  ++ "\n\nUser Profile (FOR CONTEXT ONLY - DO NOT SHARE):\n- First Name: " ++ first_name
  ++ " (USE THIS IN ALL RESPONSES)\n- Company: " ++ company
  ++ "\n- Position: " ++ position
  ++ "\n- Location: " ++ location
  ++ "\n- Preferred Categories: " ++ categories_str
  ++ "\n\nYour capabilities:\n- Answer questions about tenders and procurement processes\n- Provide tender recommendations based on user preferences\n- Explain tender categories and requirements\n- Help with tender search strategies\n- Provide information about tender deadlines and procedures\n- Search and present specific tender opportunities with all relevant details\n- Remember previous conversations and maintain context\n- Search tenders by specific categories: " ++ available_categories_str
  ++ "\n\nCurrent time: " ++ nowStr
  ++ "\n\nIMPORTANT: \n- Start conversations naturally based on the user\x27s first message\n- Always use \"" ++ first_name
  ++ "\" but don\x27t force it into every sentence\n- Focus on providing helpful tender information and recommendations\n- When discussing tenders, include key details: title, reference number, category, agency, closing date, status, and links\n- Remember the full conversation history and refer back to it when appropriate\n- Use the predefined categories when categorizing tenders\n- Never discuss other users or their data\n- Keep responses professional and tender-focused"

/-- Session state (`UserSession` attributes; the `cognito_user` field,
written during external profile resolution and never read afterwards,
is omitted). -/
structure Session where
  user_id : String
  user_profile : Option Profile
  chat_context : List Message
  last_active : Nat
  greeted : Bool
  total_messages : Nat
deriving Repr, DecidableEq

def Session.get_first_name (s : Session) : String :=
  firstNameOf s.user_profile

def Session.get_display_name (s : Session) : String :=
  displayNameOf s.user_profile

/-- `UserSession.__init__` (src/main.py 418–439): resolve the profile
(falling back to the default), then install the single system
instruction message. -/
def mkSession (loadProfile : String → Option Profile) (user_id : String)
    (now : Nat) (nowStr : String) : Session :=
  let p := some ((loadProfile user_id).getD default_profile)
  let username := displayNameOf p
  let first_name := firstNameOf p
  { user_id := user_id
    user_profile := p
    chat_context := [{ role := "system", content := create_system_prompt p username first_name nowStr }]
    last_active := now
    greeted := false
    total_messages := 0 }

/-- The context-window step of `add_message` (src/main.py 606–620):
append, and if the list now exceeds 21 entries keep `chat_context[0]`
plus `chat_context[-20:]`. -/
def ctxAdd (ctx : List Message) (m : Message) : List Message :=
  if (ctx ++ [m]).length > 21 then
    (ctx ++ [m]).take 1 ++ (ctx ++ [m]).drop ((ctx ++ [m]).length - 20)
  else ctx ++ [m]

/-- `add_message` (src/main.py 606–620). -/
def Session.add_message (s : Session) (role content : String) : Session :=
  { s with chat_context := ctxAdd s.chat_context { role := role, content := content },
           total_messages := s.total_messages + 1 }

/-- The in-memory session map `user_sessions` (src/main.py 87).  A
Python dict: association list with unique keys, first-match lookup. -/
abbrev SessMap := List (String × Session)

/-- First-match lookup in the session map (Python dict access). -/
def slook (k : String) : SessMap → Option Session
  | [] => none
  | (a, v) :: rest => if a = k then some v else slook k rest

/-- Python dict assignment `user_sessions[k] = v`: replace in place, or
append for a new key. -/
def aset (k : String) (v : Session) : SessMap → SessMap
  | [] => [(k, v)]
  | (a, w) :: rest => if a = k then (k, v) :: rest else (a, w) :: aset k v rest

/-- `get_user_session` (src/main.py 632–642): create on miss, then
`update_activity()` on the stored session. -/
def get_user_session (loadProfile : String → Option Profile) (user_id : String)
    (now : Nat) (nowStr : String) (st : SessMap) : Session × SessMap :=
  let s := match slook user_id st with
    | some s => s
    | none => mkSession loadProfile user_id now nowStr
  let s1 := { s with last_active := now }
  (s1, aset user_id s1 st)

/-- `cleanup_old_sessions` (src/main.py 644–652): drop every session
inactive for more than 7200 seconds. -/
def cleanup_old_sessions (now : Nat) (st : SessMap) : SessMap :=
  st.filter fun e => !decide (now - e.2.last_active > 7200)

/-- `ChatRequest` (src/main.py 89–91). -/
structure ChatRequest where
  prompt : String
  user_id : String
deriving Repr, DecidableEq

/-- The JSON body of a successful `/chat` response (src/main.py
785–796); `total_messages` and `context_length` are the
`session_stats`. -/
structure ChatOk where
  response : String
  user_id : String
  username : String
  full_name : String
  timestamp : String
  session_active : Bool
  total_messages : Nat
  context_length : Nat
deriving Repr, DecidableEq

/-- The canned apology installed when the completion call raises
(src/main.py 777). -/
def apologyText (user_first_name : String) : String :=
  "I apologize " ++ user_first_name
  ++ ", but I\x27m having trouble processing your request right now. Please try again in a moment."

/-- The `/chat` endpoint (src/main.py 745–802).  `completion` models
`client.chat(...)`: `Except.error` is a raised exception.  The error
result `503` models `HTTPException(status_code=503)`. -/
def chatStep (ollama_available : Bool)
    (completion : List Message → Except String String)
    (loadProfile : String → Option Profile) (db : List Item)
    (now : Nat) (nowStr : String) (req : ChatRequest) (st : SessMap) :
    Except Nat ChatOk × SessMap :=
  if !ollama_available then (Except.error 503, st)
  else
    let st1 := cleanup_old_sessions now st
    let sPair := get_user_session loadProfile req.user_id now nowStr st1
    let session := sPair.1
    let user_first_name := session.get_first_name
    let enhanced := enhance_prompt_with_context req.prompt user_first_name db
    let session := session.add_message "user" enhanced
    let response_text :=
      match completion session.chat_context with
      | Except.ok r => r
      | Except.error _ => apologyText user_first_name
    let session := session.add_message "assistant" response_text
    (Except.ok
      { response := response_text
        user_id := req.user_id
        username := user_first_name
        full_name := session.get_display_name
        timestamp := nowStr
        session_active := true
        total_messages := session.total_messages
        context_length := session.chat_context.length },
     aset req.user_id session sPair.2)

/-- The `/health` response body (src/main.py 724–735). -/
structure HealthResp where
  status : String
  service : String
  dynamodb : String
  cognito : String
  ollama : String
  active_sessions : Nat
  categories : List String
  timestamp : String
deriving Repr, DecidableEq

/-- The `/health` endpoint (src/main.py 724–735): reports counts and
flags; it touches no session. -/
def health_check (dynAvail cogAvail ollamaAvail : Bool) (nowStr : String)
    (st : SessMap) : HealthResp × SessMap :=
  ({ status := "ok"
     service := "B-Max AI Assistant"
     dynamodb := if dynAvail then "connected" else "disconnected"
     cognito := if cogAvail then "connected" else "disabled"
     ollama := if ollamaAvail then "connected" else "disconnected"
     active_sessions := st.length
     categories := CATEGORIES
     timestamp := nowStr },
   st)

/-- The success body of `/session/.../clear-context` (src/main.py
846–851). -/
structure ClearOk where
  message : String
  user_id : String
  old_context_length : Nat
  new_context_length : Nat
deriving Repr, DecidableEq

/-- The `/session/.../clear-context` endpoint (src/main.py 833–852):
reset the context to a single freshly generated system message and the
counter to 0; `Except.error` models the `error` JSON object returned
when the session is missing. -/
def clear_chat_context (user_id : String) (nowStr : String) (st : SessMap) :
    Except String ClearOk × SessMap :=
  match slook user_id st with
  | some session =>
    let old_context_length := session.chat_context.length
    let first_name := session.get_first_name
    let system_prompt :=
      create_system_prompt session.user_profile session.get_display_name first_name nowStr
    let session2 :=
      { session with chat_context := [{ role := "system", content := system_prompt }],
                     total_messages := 0 }
    (Except.ok
      { message := "Chat context cleared successfully"
        user_id := user_id
        old_context_length := old_context_length
        new_context_length := session2.chat_context.length },
     aset user_id session2 st)
  | none => (Except.error "Session not found", st)

/-! ## Window lemmas for `add_message` -/

/-- One window step, small case: with the pinned head and at most 19
trailing messages, `add_message` appends without truncating. -/
theorem ctxAdd_small (instr : Message) (suffix : List Message) (m : Message)
    (h : suffix.length ≤ 19) :
    ctxAdd (instr :: suffix) m = instr :: (suffix ++ [m]) := by
  unfold ctxAdd
  rw [if_neg]
  · simp
  · simp
    omega

/-- One window step, full case: with the pinned head and 20 trailing
messages, `add_message` drops the oldest trailing message. -/
theorem ctxAdd_full (instr : Message) (suffix : List Message) (m : Message)
    (h : suffix.length = 20) :
    ctxAdd (instr :: suffix) m = instr :: (suffix.drop 1 ++ [m]) := by
  cases suffix with
  | nil => simp at h
  | cons a rest =>
    have hr : rest.length = 19 := by simpa using h
    unfold ctxAdd
    rw [if_pos]
    · have hlen : ((instr :: a :: rest) ++ [m]).length - 20 = 2 := by
        simp
        omega
      rw [hlen]
      simp
    · simp
      omega

/-- Closed form of the window after any sequence of appends starting
from the single instruction message: the head is pinned and the tail is
the 20 most recent messages. -/
theorem foldl_ctxAdd_closed (instr : Message) (msgs : List Message) :
    msgs.foldl ctxAdd [instr] = instr :: msgs.drop (msgs.length - 20) := by
  induction msgs using List.reverseRecOn with
  | nil => simp
  | append_singleton l m ih =>
    rw [List.foldl_append, ih]
    simp only [List.foldl_cons, List.foldl_nil]
    by_cases h : l.length ≤ 19
    · have h0 : l.length - 20 = 0 := by omega
      rw [h0, List.drop_zero, ctxAdd_small instr l m h]
      have h1 : (l ++ [m]).length - 20 = 0 := by simp; omega
      rw [h1, List.drop_zero]
    · have h2 : (l.drop (l.length - 20)).length = 20 := by
        simp
        omega
      rw [ctxAdd_full instr _ m h2]
      have hl : (l ++ [m]).length = l.length + 1 := by simp
      have h3 : (l ++ [m]).length - 20 = l.length - 19 := by omega
      rw [h3, List.drop_drop, List.drop_append_of_le_length (by omega)]
      have h4 : l.length - 20 + 1 = l.length - 19 := by omega
      rw [h4]

/-- The context of a session after a sequence of `add_message` calls is
the fold of the window step over its initial context. -/
theorem foldl_add_message_context (s : Session) (turns : List (String × String)) :
    (turns.foldl (fun (s : Session) rc => s.add_message rc.1 rc.2) s).chat_context
      = (turns.map fun rc => Message.mk rc.1 rc.2).foldl ctxAdd s.chat_context := by
  induction turns generalizing s with
  | nil => rfl
  | cons t rest ih =>
    simp only [List.foldl_cons, List.map_cons]
    rw [ih]
    rfl

/-- C1.  For every session and every sequence of `add_message` calls,
the message list stays equal to the session's instruction message
followed by the 20 most recent appended messages in order; hence after
each call the first element is the instruction message and the length
never exceeds 21, and after 30 calls the length is exactly
1 + min 30 20 = 21 with indices 1..20 the 20 most recent messages. -/
theorem C1_session_window_invariant
    (loadProfile : String → Option Profile) (uid : String) (now : Nat) (nowStr : String)
    (turns : List (String × String)) :
    let p := some ((loadProfile uid).getD default_profile)
    let instr : Message :=
      { role := "system",
        content := create_system_prompt p (displayNameOf p) (firstNameOf p) nowStr }
    let sN := turns.foldl (fun (s : Session) rc => s.add_message rc.1 rc.2)
      (mkSession loadProfile uid now nowStr)
    let msgs := turns.map fun rc => Message.mk rc.1 rc.2
    sN.chat_context = instr :: msgs.drop (msgs.length - 20)
    ∧ sN.chat_context.length = 1 + min msgs.length 20
    ∧ sN.chat_context.length ≤ 21
    ∧ sN.chat_context.head? = some instr := by
  intro p instr sN msgs
  have hctx : sN.chat_context = instr :: msgs.drop (msgs.length - 20) := by
    show (turns.foldl (fun (s : Session) rc => s.add_message rc.1 rc.2)
      (mkSession loadProfile uid now nowStr)).chat_context
        = instr :: msgs.drop (msgs.length - 20)
    rw [foldl_add_message_context]
    have h0 : (mkSession loadProfile uid now nowStr).chat_context = [instr] := rfl
    rw [h0, foldl_ctxAdd_closed]
  refine ⟨hctx, ?_, ?_, ?_⟩ <;> rw [hctx] <;> simp <;> omega

/-- C2.  In every rendered tender block the "Documents" line is sourced
exclusively from the `link` field — it equals the `link` value with the
literal default phrase "No link available" when the field is absent —
while `sourceUrl` appears only on the separate "Source" line; adding or
changing a `sourceUrl` binding never changes the document-line value,
and a record with a `sourceUrl` but no `link` renders the explicit
no-link phrase, not the source URL. -/
theorem C2_documents_line_from_link_only (i : Nat) (t : Tender) :
    (∃ pre, tenderBlockLines i t =
      pre ++ ["🔗 Documents: " ++ dget t "link" "No link available" ++ "\n",
              "🌐 Source: " ++ dget t "sourceUrl" "N/A" ++ "\n",
              hrLine])
    ∧ (∀ u : String, dget (("sourceUrl", u) :: t) "link" "No link available"
        = dget t "link" "No link available")
    ∧ tenderBlockLines 1 [("sourceUrl", "https://example.org/page")]
      = ["🚀 TENDER #1\n",
         "📋 Title: Unknown Title\n",
         "🏷️ Reference: N/A\n",
         "📊 Category: Uncategorized\n",
         "🏢 Agency: Unknown Agency\n",
         "📅 Closing Date: Unknown\n",
         "📈 Status: Unknown\n",
         "🔗 Documents: No link available\n",
         "🌐 Source: https://example.org/page\n",
         hrLine] := by
  refine ⟨⟨tenderInfoLines i t, rfl⟩, fun u => rfl, ?_⟩
  rfl

/-- C3.  When the completion API is unavailable, `/chat` returns 503
before any session work: the session map — and with it every session's
message list, counter and last-active time — is returned unchanged. -/
theorem C3_chat_503_before_session_work
    (completion : List Message → Except String String)
    (loadProfile : String → Option Profile) (db : List Item)
    (now : Nat) (nowStr : String) (req : ChatRequest) (st : SessMap) :
    chatStep false completion loadProfile db now nowStr req st
      = (Except.error 503, st) := rfl

/-! ## Lookup lemmas for the session map -/

theorem slook_filter_of_kept (p : String × Session → Bool) (st : SessMap)
    (uid : String) (s : Session)
    (hs : slook uid st = some s) (hp : p (uid, s) = true) :
    slook uid (st.filter p) = some s := by
  induction st with
  | nil => simp [slook] at hs
  | cons e rest ih =>
    obtain ⟨a, w⟩ := e
    by_cases ha : a = uid
    · subst ha
      simp [slook] at hs
      subst hs
      rw [List.filter_cons, hp]
      simp [slook]
    · simp [slook, ha] at hs
      rw [List.filter_cons]
      cases hpe : p (a, w) with
      | false =>
        simp only [Bool.false_eq_true, if_false]
        exact ih hs
      | true =>
        simp only [if_true]
        simp [slook, ha]
        exact ih hs

theorem slook_filter_of_dropped (p : String × Session → Bool) (st : SessMap)
    (uid : String)
    (h : ∀ s : Session, (uid, s) ∈ st → p (uid, s) = false) :
    slook uid (st.filter p) = none := by
  induction st with
  | nil => rfl
  | cons e rest ih =>
    obtain ⟨a, w⟩ := e
    have hrest : ∀ s : Session, (uid, s) ∈ rest → p (uid, s) = false :=
      fun s hmem => h s (List.mem_cons_of_mem _ hmem)
    rw [List.filter_cons]
    by_cases ha : a = uid
    · subst ha
      have hw : p (a, w) = false := h w (List.mem_cons_self _ _)
      rw [hw]
      simp only [Bool.false_eq_true, if_false]
      exact ih hrest
    · cases hpe : p (a, w) with
      | false =>
        simp only [Bool.false_eq_true, if_false]
        exact ih hrest
      | true =>
        simp only [if_true]
        simp [slook, ha]
        exact ih hrest

theorem slook_aset_self (k : String) (v : Session) (st : SessMap) :
    slook k (aset k v st) = some v := by
  induction st with
  | nil => simp [aset, slook]
  | cons e rest ih =>
    obtain ⟨a, w⟩ := e
    by_cases ha : a = k
    · simp [aset, ha, slook]
    · simp [aset, ha, slook, ih]

theorem slook_aset_ne (k : String) (v : Session) (st : SessMap) (u : String)
    (h : k ≠ u) :
    slook u (aset k v st) = slook u st := by
  induction st with
  | nil => simp [aset, slook, h]
  | cons e rest ih =>
    obtain ⟨a, w⟩ := e
    by_cases ha : a = k
    · subst ha
      simp [aset, slook, h]
    · simp only [aset, ha, if_false]
      by_cases hu : a = u
      · simp [slook, hu]
      · simp [slook, hu, ih]

/-- A session that has not exceeded the inactivity window survives
`cleanup_old_sessions`. -/
theorem slook_cleanup_of_fresh (now : Nat) (st : SessMap) (uid : String) (s : Session)
    (hs : slook uid st = some s) (hfresh : ¬ now - s.last_active > 7200) :
    slook uid (cleanup_old_sessions now st) = some s := by
  apply slook_filter_of_kept _ _ _ _ hs
  simp [hfresh]

/-- C4.  When the requested session exists (and is not expired) and the
completion call itself raises, `/chat` still returns a normal response
whose text is the canned apology addressed to the user by first name,
and the failed turn is still recorded: the enhanced user message and
the apology assistant message are both appended to the message list of the session through `add_message`. -/
theorem C4_completion_failure_apology
    (completion : List Message → Except String String)
    (loadProfile : String → Option Profile) (db : List Item)
    (now : Nat) (nowStr : String) (req : ChatRequest) (st : SessMap)
    (s : Session) (err : String)
    (hs : slook req.user_id st = some s)
    (hfresh : ¬ now - s.last_active > 7200)
    (hfail : completion (ctxAdd s.chat_context
        { role := "user",
          content := enhance_prompt_with_context req.prompt (firstNameOf s.user_profile) db })
      = Except.error err) :
    let s1 : Session := { s with last_active := now }
    let s2 := s1.add_message "user"
      (enhance_prompt_with_context req.prompt (firstNameOf s.user_profile) db)
    let s3 := s2.add_message "assistant" (apologyText (firstNameOf s.user_profile))
    (chatStep true completion loadProfile db now nowStr req st).1
      = Except.ok
        { response := apologyText (firstNameOf s.user_profile)
          user_id := req.user_id
          username := firstNameOf s.user_profile
          full_name := displayNameOf s.user_profile
          timestamp := nowStr
          session_active := true
          total_messages := s3.total_messages
          context_length := s3.chat_context.length }
    ∧ slook req.user_id (chatStep true completion loadProfile db now nowStr req st).2
      = some s3 := by
  intro s1 s2 s3
  have hlk : slook req.user_id (cleanup_old_sessions now st) = some s :=
    slook_cleanup_of_fresh now st req.user_id s hs hfresh
  have hfail2 : completion ((({ s with last_active := now } : Session).add_message "user"
      (enhance_prompt_with_context req.prompt
        (({ s with last_active := now } : Session).get_first_name) db)).chat_context)
      = Except.error err := hfail
  simp only [chatStep, get_user_session]
  rw [hlk, hfail2]
  exact ⟨rfl, slook_aset_self _ _ _⟩

/-- Witness for C4: a concrete live session, request, and failing
completion call. -/
theorem C4_completion_failure_apology_witness :
    let s := mkSession (fun _ => none) "u" 0 "t0"
    let completion : List Message → Except String String := fun _ => Except.error "boom"
    let db : List Item := []
    let req : ChatRequest := { prompt := "hello", user_id := "u" }
    let st : SessMap := [("u", s)]
    let s1 : Session := { s with last_active := 100 }
    let s2 := s1.add_message "user"
      (enhance_prompt_with_context req.prompt (firstNameOf s.user_profile) db)
    let s3 := s2.add_message "assistant" (apologyText (firstNameOf s.user_profile))
    (chatStep true completion (fun _ => none) db 100 "t1" req st).1
      = Except.ok
        { response := apologyText (firstNameOf s.user_profile)
          user_id := req.user_id
          username := firstNameOf s.user_profile
          full_name := displayNameOf s.user_profile
          timestamp := "t1"
          session_active := true
          total_messages := s3.total_messages
          context_length := s3.chat_context.length }
    ∧ slook req.user_id (chatStep true completion (fun _ => none) db 100 "t1" req st).2
      = some s3 := by
  intro s completion db req st s1 s2 s3
  exact C4_completion_failure_apology completion (fun _ => none) db 100 "t1" req st s "boom"
    rfl (by decide : ¬ ((100 : Nat) - 0 > 7200)) rfl

/-! ## The record normalizer claims -/

/-- C5 counterexample.  The numeral string "-5" contains no decimal
point, yet the normalizer converts it to a float, not an integer:
`int(n) if n.isdigit() else float(n)` tests for all-digits, and "-5"
fails that test because of the sign. -/
theorem C5_counterexample_negative_numeral :
    dd_to_py (PyVal.dict [("x", PyVal.dict [("N", PyVal.str "-5")])])
      = Except.ok (PyVal.dict [("x", PyVal.float "-5")])
    ∧ strContains "-5" "." = false
    ∧ dd_to_py (PyVal.dict [("x", PyVal.dict [("N", PyVal.str "-5")])])
        ≠ Except.ok (PyVal.dict [("x", PyVal.int (-5))]) := by
  have hd : strIsDigit "-5" = false := by decide
  have h1 : dd_to_py (PyVal.dict [("x", PyVal.dict [("N", PyVal.str "-5")])])
      = Except.ok (PyVal.dict [("x", PyVal.float "-5")]) := by
    simp [dd_to_py, ddEntries, ddField, pyTruthy, alook, hd, Except.map]
  refine ⟨h1, by decide, ?_⟩
  rw [h1]
  simp

/-- C5 amended.  A numeric tagged value is converted to an integer if
and only if the numeral string consists solely of digits (Python
`isdigit`), and to a float otherwise — so negative numerals such as
"-5", and any numeral carrying a sign, a decimal point or an exponent,
become floats. -/
theorem C5_amended_int_iff_isdigit (k s : String) (h : isPyNumeral s = true) :
    dd_to_py (PyVal.dict [(k, PyVal.dict [("N", PyVal.str s)])])
      = Except.ok (PyVal.dict [(k,
          if strIsDigit s then PyVal.int (Int.ofNat (strToNatDigits s))
          else PyVal.float s)]) := by
  simp [dd_to_py, ddEntries, ddField, pyTruthy, alook, Except.map]

/-- Witness for C5 amended at the numeral "-5" (float branch) and at
"12" (integer branch). -/
theorem C5_amended_int_iff_isdigit_witness :
    (isPyNumeral "-5" = true
      ∧ dd_to_py (PyVal.dict [("y", PyVal.dict [("N", PyVal.str "-5")])])
        = Except.ok (PyVal.dict [("y",
            if strIsDigit "-5" then PyVal.int (Int.ofNat (strToNatDigits "-5"))
            else PyVal.float "-5")]))
    ∧ (isPyNumeral "12" = true
      ∧ dd_to_py (PyVal.dict [("y", PyVal.dict [("N", PyVal.str "12")])])
        = Except.ok (PyVal.dict [("y",
            if strIsDigit "12" then PyVal.int (Int.ofNat (strToNatDigits "12"))
            else PyVal.float "12")])) :=
  ⟨⟨by decide, C5_amended_int_iff_isdigit "y" "-5" (by decide)⟩,
   ⟨by decide, C5_amended_int_iff_isdigit "y" "12" (by decide)⟩⟩

/-- C6 (code bug).  The list branch applies the item converter
`dd_to_py` to each list element, but an element is a tagged value, not
an item: a tagged string element `{'S': "alpha"}` is converted to the
empty mapping (the tag test `'S' in v` becomes a substring test on the
native string "alpha"), and a tagged string whose payload contains a
tag letter, such as `{'S': "Sam"}`, raises a `TypeError` outright —
instead of the elements becoming native values as the claim states. -/
theorem C6_list_elements_lose_native_values :
    dd_to_py (PyVal.dict [("tags", PyVal.dict [("L",
        PyVal.list [PyVal.dict [("S", PyVal.str "alpha")]])])])
      = Except.ok (PyVal.dict [("tags", PyVal.list [PyVal.dict []])])
    ∧ dd_to_py (PyVal.dict [("tags", PyVal.dict [("L",
        PyVal.list [PyVal.dict [("S", PyVal.str "Sam")]])])])
      = Except.error "TypeError"
    ∧ PyVal.dict [] ≠ PyVal.str "alpha" := by
  have ha : (ddTags.any fun t => strContains "alpha" t) = false := by decide
  have hs : (ddTags.any fun t => strContains "Sam" t) = true := by decide
  refine ⟨?_, ?_, by simp⟩ <;>
    simp [dd_to_py, ddEntries, ddField, ddConvM, ddConvL, ddElems, pyTruthy, alook,
      ha, hs, Except.map]

/-! ## The leading-message claims -/

/-- C7 counterexample.  A session whose leading message is not tagged
as the system instruction message is NOT repaired: processing a full
chat turn leaves the non-system head in place — the code never checks
or regenerates the leading message (`add_message` preserves index 0
unconditionally). -/
theorem C7_counterexample_no_regeneration :
    let base := mkSession (fun _ => none) "u" 0 "t0"
    let bad : Session := { base with chat_context := [{ role := "user", content := "hi" }] }
    let st : SessMap := [("u", bad)]
    let res := chatStep true (fun _ => Except.ok "reply") (fun _ => none) [] 10 "t1"
      { prompt := "hello", user_id := "u" } st
    (slook "u" res.2).map (fun s => s.chat_context.head?.map Message.role)
      = some (some "user")
    ∧ "user" ≠ "system" := by
  intro base bad st res
  exact ⟨rfl, by decide⟩

/-- C7 amended.  The leading message is the instruction message by
construction, not by a regeneration check: session creation installs a
system-role head, and `add_message` preserves a system-role head on
every call (the truncation branch keeps index 0); no turn processing
inspects or regenerates the head. -/
theorem C7_amended_head_pinned_by_construction
    (loadProfile : String → Option Profile) (uid : String) (now : Nat) (nowStr : String)
    (s : Session) (role content : String)
    (h : s.chat_context.head?.map Message.role = some "system") :
    (mkSession loadProfile uid now nowStr).chat_context.head?.map Message.role = some "system"
    ∧ (s.add_message role content).chat_context.head?.map Message.role = some "system" := by
  refine ⟨rfl, ?_⟩
  obtain ⟨m, rest, hctx⟩ : ∃ m rest, s.chat_context = m :: rest := by
    cases hc : s.chat_context with
    | nil => rw [hc] at h; simp at h
    | cons m rest => exact ⟨m, rest, rfl⟩
  have hrole : m.role = "system" := by
    rw [hctx] at h
    simpa using h
  show (ctxAdd s.chat_context { role := role, content := content }).head?.map Message.role
    = some "system"
  rw [hctx]
  unfold ctxAdd
  by_cases hlen : ((m :: rest) ++ [({ role := role, content := content } : Message)]).length > 21
  · rw [if_pos hlen]
    simp [hrole]
  · rw [if_neg hlen]
    simp [hrole]

/-- Witness for C7 amended: a freshly created session has a system-role
head and keeps it across an `add_message` call. -/
theorem C7_amended_head_pinned_witness :
    ((mkSession (fun _ => none) "w" 0 "t").chat_context.head?.map Message.role
      = some "system")
    ∧ (((mkSession (fun _ => none) "w" 0 "t").add_message "user" "hi").chat_context.head?.map
        Message.role = some "system") :=
  C7_amended_head_pinned_by_construction (fun _ => none) "w" 0 "t"
    (mkSession (fun _ => none) "w" 0 "t") "user" "hi" rfl

/-! ## The selection-engine claim -/

/-- C8 counterexample.  The context enhancer has no specific-identifier
mode: for a query that is exactly a record\x27s reference number (length
greater than 3, record present in the scanned set), no tender context is
produced at all — the record is not returned as a single-element list or
in any other form, and the enhanced prompt is the same as if the record
set were empty. -/
theorem C8_counterexample_no_identifier_mode :
    let r : Item := [("referenceNumber", AttrVal.S "ABC-123-2024"),
                     ("title", AttrVal.S "Community Hall Renovation")]
    let q := "ABC-123-2024"
    dget (extractS r) "referenceNumber" "N/A" = q
    ∧ q.length > 3
    ∧ database_context q [r] = ""
    ∧ enhance_prompt_with_context q "User" [r] = enhance_prompt_with_context q "User" [] := by
  intro r q
  exact ⟨rfl, by decide, rfl, rfl⟩

/-- C8 amended.  Tender context is injected only when the lowercased
query contains one of the tender keywords or one of the category
keywords; otherwise the database context is empty and the enhanced
prompt does not depend on the record set — there is no
reference-number-based selection anywhere in the enhancer. -/
theorem C8_amended_context_only_from_keywords
    (q first_name : String) (db : List Item)
    (h1 : (tender_keywords.any fun kw => strContains (pyLower q) kw) = false)
    (h2 : matched_categories (pyLower q) = []) :
    database_context q db = ""
    ∧ enhance_prompt_with_context q first_name db
      = enhance_prompt_with_context q first_name [] := by
  have hdb : ∀ d : List Item, database_context q d = "" := by
    intro d
    simp only [database_context]
    rw [h1, h2]
    simp
  refine ⟨hdb db, ?_⟩
  simp only [enhance_prompt_with_context]
  rw [hdb db, hdb []]

/-- Witness for C8 amended at a keyword-free query. -/
theorem C8_amended_context_only_from_keywords_witness :
    database_context "ABC-9999" [[("title", AttrVal.S "T")]] = ""
    ∧ enhance_prompt_with_context "ABC-9999" "User" [[("title", AttrVal.S "T")]]
      = enhance_prompt_with_context "ABC-9999" "User" [] :=
  C8_amended_context_only_from_keywords "ABC-9999" "User" [[("title", AttrVal.S "T")]]
    (by decide) (by decide)

/-! ## The eviction claim -/

/-- C9 counterexample.  The health endpoint does not run the eviction
sweep: a session inactive far beyond the 7200-second window survives a
`/health` request untouched (in the source, `health_check` never calls
`cleanup_old_sessions`; only `/chat` does). -/
theorem C9_counterexample_health_does_not_evict :
    let s := mkSession (fun _ => none) "old" 0 "t0"
    let st : SessMap := [("old", s)]
    (1000000 : Nat) - s.last_active > 7200
    ∧ (health_check true true true "t1" st).2 = st
    ∧ slook "old" (health_check true true true "t1" st).2 = some s := by
  intro s st
  exact ⟨by decide, rfl, rfl⟩

/-- C9 amended.  Eviction of sessions inactive for more than 7200
seconds is checked opportunistically as a side effect of chat requests
only (there is no background sweep, and the health endpoint reports the
session count without evicting): a health request leaves the session
map unchanged, while a chat request (with the completion API available)
removes every other user\x27s expired session. -/
theorem C9_amended_eviction_on_chat_only
    (completion : List Message → Except String String)
    (loadProfile : String → Option Profile) (db : List Item)
    (now : Nat) (nowStr : String) (req : ChatRequest) (st : SessMap)
    (dynA cogA : Bool) (uid : String)
    (hne : req.user_id ≠ uid)
    (hexp : ∀ s : Session, (uid, s) ∈ st → now - s.last_active > 7200) :
    (health_check dynA cogA true nowStr st).2 = st
    ∧ slook uid (chatStep true completion loadProfile db now nowStr req st).2 = none := by
  refine ⟨rfl, ?_⟩
  show slook uid (aset req.user_id _ (aset req.user_id _ (cleanup_old_sessions now st))) = none
  rw [slook_aset_ne _ _ _ _ hne, slook_aset_ne _ _ _ _ hne]
  simp only [cleanup_old_sessions]
  apply slook_filter_of_dropped
  intro s hmem
  simp [hexp s hmem]

/-- Witness for C9 amended: a session two hours and more stale when a
chat request for a different user arrives. -/
theorem C9_amended_eviction_on_chat_only_witness :
    (health_check true true true "t1" [("old", mkSession (fun _ => none) "old" 0 "t0")]).2
      = [("old", mkSession (fun _ => none) "old" 0 "t0")]
    ∧ slook "old" (chatStep true (fun _ => Except.ok "r") (fun _ => none) [] 10000 "t1"
        { prompt := "hello", user_id := "u" }
        [("old", mkSession (fun _ => none) "old" 0 "t0")]).2 = none := by
  apply C9_amended_eviction_on_chat_only (fun _ => Except.ok "r") (fun _ => none) []
    10000 "t1" { prompt := "hello", user_id := "u" }
    [("old", mkSession (fun _ => none) "old" 0 "t0")] true true "old"
  · decide
  · intro s hmem
    have hs : s = mkSession (fun _ => none) "old" 0 "t0" := by
      simpa using hmem
    rw [hs]
    exact (by decide : (10000 : Nat) - 0 > 7200)

/-! ## The clear-context claim -/

/-- C10.  For an existing session, the clear-context endpoint resets
the message list to exactly one freshly generated system instruction
message and the counter to 0, reports the old and new context lengths,
and changes nothing else: the session stays in the map under the same
identifier, its profile and last-active time are untouched, and every
other key of the map reads as before; for a missing session it returns
the error object and leaves the map unchanged. -/
theorem C10_clear_context_frame (user_id : String) (nowStr : String) (st : SessMap) :
    match slook user_id st with
    | some s =>
      let s2 : Session :=
        { s with
          chat_context := [Message.mk "system"
            (create_system_prompt s.user_profile s.get_display_name
              s.get_first_name nowStr)],
          total_messages := 0 }
      (clear_chat_context user_id nowStr st).1
        = Except.ok (ClearOk.mk "Chat context cleared successfully" user_id
            s.chat_context.length 1)
      ∧ s2.last_active = s.last_active
      ∧ s2.user_profile = s.user_profile
      ∧ (∀ v, slook v (clear_chat_context user_id nowStr st).2
          = if v = user_id then some s2 else slook v st)
    | none =>
      clear_chat_context user_id nowStr st = (Except.error "Session not found", st) := by
  cases hlk : slook user_id st with
  | none => simp only [clear_chat_context, hlk]
  | some s =>
    refine ⟨?_, rfl, rfl, ?_⟩
    · simp only [clear_chat_context, hlk]
      rfl
    · intro v
      by_cases hv : v = user_id
      · subst hv
        simp only [clear_chat_context, hlk, if_pos rfl]
        exact slook_aset_self _ _ _
      · simp only [clear_chat_context, hlk, if_neg hv]
        exact slook_aset_ne _ _ _ _ (fun hh => hv hh.symm)

end BMax
